import Mathlib

/-!
Shallow embedding of the assessment / certification core of the `ppl2ppl`
Django application (files `src/core/models.py` and `src/core/views.py`).

Database rows become Lean structures; the relevant model methods
(`AssessmentAttempt.calculate_score`, `AssessmentAttempt.submit`,
`UserCertification.certify`) and the view bodies (`start_assessment`,
`take_assessment` POST branch, `assessment_result`) become pure functions
over explicit lists of rows.  Scores are `Rat` (Python true division of two
non-negative integers times 100 is an exact rational; the concrete values in
the claims are exactly representable).  Times are abstract `Nat` instants.
-/

/-- Row of `core.Assessment` (the fields the assessment flow reads).
`passing_score` is a `PositiveIntegerField` with validators allowing 0..100. -/
structure Assessment where
  id : Nat
  passing_score : Nat
  total_questions : Nat
  randomize_questions : Bool
  is_active : Bool
  deriving Repr, DecidableEq

/-- Row of `core.AssessmentQuestion`: belongs to an assessment, has an `order`. -/
structure AssessmentQuestion where
  id : Nat
  assessment : Nat
  order : Nat
  deriving Repr, DecidableEq

/-- Row of `core.AssessmentOption`: belongs to a question, carries `is_correct`. -/
structure AssessmentOption where
  id : Nat
  question : Nat
  is_correct : Bool
  deriving Repr, DecidableEq

/-- `AssessmentAttempt.STATUS_CHOICES`: in_progress / submitted / graded. -/
inductive AttemptStatus where
  | in_progress
  | submitted
  | graded
  deriving Repr, DecidableEq

/-- Row of `core.AssessmentAttempt`.  `score_percentage` is the stored score
(a decimal in the database, assigned from Python float division; modelled
exactly as `Rat`), `submitted_at` an optional instant. -/
structure AssessmentAttempt where
  id : Nat
  user : Nat
  assessment : Nat
  status : AttemptStatus
  total_questions : Nat
  correct_answers : Nat
  score_percentage : Rat
  passed : Bool
  submitted_at : Option Nat
  deriving Repr, DecidableEq

/-- Row of `core.UserResponse`: one per (attempt, question), with the selected
option id (nullable) and an `is_correct` flag defaulting to false. -/
structure UserResponse where
  attempt : Nat
  question : Nat
  selected_option : Option Nat
  is_correct : Bool
  deriving Repr, DecidableEq

/-- Row of `core.UserCertification` (a OneToOneField on user: at most one row
per user, modelled by carrying at most one `UserCertification` per user). -/
structure UserCertification where
  user : Nat
  is_certified : Bool
  certification_date : Option Nat
  passing_attempt : Option Nat
  deriving Repr, DecidableEq

/-- `AssessmentAttempt.calculate_score` (models.py lines 323-328):

```python
if self.total_questions > 0:
    self.score_percentage = (self.correct_answers / self.total_questions) * 100
    self.passed = self.score_percentage >= self.assessment.passing_score
self.save()
```

The attempt's related `assessment.passing_score` is passed explicitly.
When `total_questions = 0` neither field is assigned. -/
def calculate_score (passing_score : Nat) (a : AssessmentAttempt) : AssessmentAttempt :=
  if a.total_questions > 0 then
    let score : Rat := ((a.correct_answers : Rat) / (a.total_questions : Rat)) * 100
    { a with
      score_percentage := score
      passed := decide ((passing_score : Rat) ≤ score) }
  else
    a

/-- `AssessmentAttempt.submit` (models.py lines 330-334): set status to
submitted and stamp `submitted_at`. -/
def AssessmentAttempt.submit (now : Nat) (a : AssessmentAttempt) : AssessmentAttempt :=
  { a with status := AttemptStatus.submitted, submitted_at := some now }

/-- `UserCertification.certify` (models.py lines 388-393): set
`is_certified`, `certification_date`, `passing_attempt`, save. -/
def UserCertification.certify (attempt_id now : Nat) (c : UserCertification) :
    UserCertification :=
  { c with
    is_certified := true
    certification_date := some now
    passing_attempt := some attempt_id }

/-- A fresh `UserCertification` row as `UserCertification.objects.create(user=...)`
makes it (model field defaults). -/
def UserCertification.createDefault (user : Nat) : UserCertification :=
  { user := user, is_certified := false, certification_date := none,
    passing_attempt := none }

/-- `take_assessment` lines 388-396: get the user's certification row or
create it, then `if not cert.is_certified: cert.certify(attempt)`. -/
def process_certification (user : Nat) (cert : Option UserCertification)
    (attempt_id now : Nat) : UserCertification :=
  let c := cert.getD (UserCertification.createDefault user)
  if c.is_certified then c else c.certify attempt_id now

/-- Error taxonomy of the web layer.  The Django views raise `Http404` via
`get_object_or_404` (`notFound`); the spec's taxonomy additionally names
`authorization` and `validation` failures. -/
inductive AppError where
  | notFound
  | authorization
  | validation
  deriving Repr, DecidableEq

/-- `get_object_or_404(AssessmentAttempt, id=attempt_id, user=request.user)`
(views.py lines 366 and 417): the ownership condition is part of the lookup
filter, so a mismatch produces the same `Http404` as a missing row. -/
def get_attempt_or_404 (attempts : List AssessmentAttempt) (attempt_id user : Nat) :
    Except AppError AssessmentAttempt :=
  match attempts.find? (fun a => a.id == attempt_id && a.user == user) with
  | some a => Except.ok a
  | none => Except.error AppError.notFound

/-- The question sequence built by `start_assessment` (views.py lines 344-351):
all questions of the assessment, shuffled when `randomize_questions` is true
(the shuffle outcome is the parameter `shuffled`), otherwise ordered by the
stored `order` field. -/
def question_sequence (assessment : Assessment) (questions : List AssessmentQuestion)
    (shuffled : List AssessmentQuestion) : List AssessmentQuestion :=
  if assessment.randomize_questions then shuffled
  else questions.mergeSort (fun a b => a.order ≤ b.order)

/-- `start_assessment` (views.py lines 335-362): create an attempt with
`total_questions` frozen from the assessment and all scoring fields at their
model defaults, then one `UserResponse` row per question of the produced
sequence, with no selected option and `is_correct = false`. -/
def start_assessment (user attempt_id : Nat) (assessment : Assessment)
    (qseq : List AssessmentQuestion) : AssessmentAttempt × List UserResponse :=
  let attempt : AssessmentAttempt :=
    { id := attempt_id, user := user, assessment := assessment.id,
      status := AttemptStatus.in_progress,
      total_questions := assessment.total_questions,
      correct_answers := 0, score_percentage := 0, passed := false,
      submitted_at := none }
  (attempt,
    qseq.map (fun q =>
      { attempt := attempt_id, question := q.id, selected_option := none,
        is_correct := false }))

/-- The response-processing loop of `take_assessment`'s POST branch
(views.py lines 370-379).  For each response in order: look up the posted
answer for its question; if absent, leave the row untouched; if present,
`get_object_or_404(AssessmentOption, id=option_id)` (no check that the option
belongs to the question), store the option and its `is_correct` flag, and
count correct selections.  On a missing option id the view raises 404
mid-loop: the error carries the rows already persisted and the untouched
remainder of the table. -/
def processResponses (options : List AssessmentOption) (answers : List (Nat × Nat)) :
    List UserResponse →
    Except (List UserResponse × List UserResponse) (List UserResponse × Nat)
  | [] => Except.ok ([], 0)
  | r :: rs =>
    match answers.lookup r.question with
    | none =>
      match processResponses options answers rs with
      | Except.ok (rs2, c) => Except.ok (r :: rs2, c)
      | Except.error (done, rest) => Except.error (r :: done, rest)
    | some oid =>
      match options.find? (fun o => o.id == oid) with
      | none => Except.error ([], r :: rs)
      | some o =>
        let r2 : UserResponse :=
          { r with selected_option := some o.id, is_correct := o.is_correct }
        match processResponses options answers rs with
        | Except.ok (rs2, c) =>
          Except.ok (r2 :: rs2, if o.is_correct then c + 1 else c)
        | Except.error (done, rest) => Except.error (r2 :: done, rest)

/-- The persisted state after the POST branch of `take_assessment` returns or
raises: the attempt's response rows, the attempt row, the user's optional
certification row, and the error raised, if any. -/
structure SubmitState where
  responses : List UserResponse
  attempt : AssessmentAttempt
  certification : Option UserCertification
  error : Option AppError
  deriving Repr, DecidableEq

/-- POST branch of `take_assessment` (views.py lines 369-398): process all
responses accumulating `attempt.correct_answers += 1` on top of the stored
count, then `calculate_score`, then `submit`, then — if the attempt passed —
get-or-create the certification row and certify unless already certified.
If the loop raises 404, the rows saved before the failure keep their new
values while the attempt and certification rows are untouched. -/
def take_assessment_post (passing_score : Nat) (options : List AssessmentOption)
    (answers : List (Nat × Nat)) (now : Nat) (attempt : AssessmentAttempt)
    (responses : List UserResponse) (cert : Option UserCertification) :
    SubmitState :=
  match processResponses options answers responses with
  | Except.error (done, rest) =>
    { responses := done ++ rest, attempt := attempt, certification := cert,
      error := some AppError.notFound }
  | Except.ok (rs2, c) =>
    let attempt2 := { attempt with correct_answers := attempt.correct_answers + c }
    let attempt3 := (calculate_score passing_score attempt2).submit now
    let cert2 :=
      if attempt3.passed then
        some (process_certification attempt3.user cert attempt3.id now)
      else cert
    { responses := rs2, attempt := attempt3, certification := cert2,
      error := none }

/-- `assessment_result` (views.py lines 415-430): fetch the attempt by id and
owner (404 on mismatch) and render it; the attempt row is not modified. -/
def assessment_result (attempts : List AssessmentAttempt) (attempt_id user : Nat) :
    Except AppError AssessmentAttempt :=
  get_attempt_or_404 attempts attempt_id user

/-!  ## Claim C1 -/

/-- Claim C1. For every attempt with `total_questions > 0`, `calculate_score`
sets `score_percentage = (correct_answers / total_questions) * 100` from the
attempt's own frozen `total_questions` field, and `passed = true` iff
`score_percentage ≥ passing_score` (inclusive); concretely, with
`passing_score = 85` and `total_questions = 20`, 17 correct gives score 85
and passed, while 16 correct gives not passed. -/
theorem calculate_score_spec (passing_score : Nat) (a : AssessmentAttempt)
    (h : a.total_questions > 0) :
    (calculate_score passing_score a).score_percentage
        = ((a.correct_answers : Rat) / (a.total_questions : Rat)) * 100
    ∧ ((calculate_score passing_score a).passed = true ↔
        (passing_score : Rat) ≤ (calculate_score passing_score a).score_percentage)
    ∧ (∀ u aid asmt : Nat,
        (calculate_score 85
          { id := aid, user := u, assessment := asmt,
            status := AttemptStatus.in_progress, total_questions := 20,
            correct_answers := 17, score_percentage := 0, passed := false,
            submitted_at := none }).score_percentage = 85
        ∧ (calculate_score 85
          { id := aid, user := u, assessment := asmt,
            status := AttemptStatus.in_progress, total_questions := 20,
            correct_answers := 17, score_percentage := 0, passed := false,
            submitted_at := none }).passed = true
        ∧ (calculate_score 85
          { id := aid, user := u, assessment := asmt,
            status := AttemptStatus.in_progress, total_questions := 20,
            correct_answers := 16, score_percentage := 0, passed := false,
            submitted_at := none }).passed = false) := by
  refine ⟨?_, ?_, ?_⟩
  · simp [calculate_score, h]
  · simp [calculate_score, h]
  · intro u aid asmt
    refine ⟨?_, ?_, ?_⟩ <;> simp [calculate_score] <;> norm_num

/-- Witness for C1 at a concrete attempt with 20 questions. -/
theorem calculate_score_spec_witness :
    ((0 : Nat) < (20 : Nat))
    ∧ (calculate_score 85
        { id := 1, user := 1, assessment := 1,
          status := AttemptStatus.in_progress, total_questions := 20,
          correct_answers := 17, score_percentage := 0, passed := false,
          submitted_at := none }).score_percentage
        = ((17 : Rat) / (20 : Rat)) * 100 := by
  refine ⟨by decide, ?_⟩
  have h := calculate_score_spec 85
    { id := 1, user := 1, assessment := 1,
      status := AttemptStatus.in_progress, total_questions := 20,
      correct_answers := 17, score_percentage := 0, passed := false,
      submitted_at := none } (by decide)
  exact h.1

/-!  ## Claim C2 -/

/-- Claim C2. Certification is idempotent across passing attempts: starting from
no certification row, the first passing attempt creates a certified row via
`certify`; processing a second passing attempt with that row present leaves it
unchanged (certify is not called again since `is_certified` is already true),
so `is_certified` stays true and `certification_date` / `passing_attempt`
still record only the first certification.  The one-row-per-user invariant is
the `OneToOneField`, modelled by the single optional row threaded here. -/
theorem certification_idempotent (u a1 a2 t1 t2 : Nat)
    (ps : Nat) (options : List AssessmentOption) (answers : List (Nat × Nat))
    (now : Nat) (attempt : AssessmentAttempt) (responses : List UserResponse) :
    process_certification u (some (process_certification u none a1 t1)) a2 t2
        = process_certification u none a1 t1
    ∧ (process_certification u none a1 t1).is_certified = true
    ∧ (process_certification u none a1 t1).certification_date = some t1
    ∧ (process_certification u none a1 t1).passing_attempt = some a1
    ∧ (take_assessment_post ps options answers now attempt responses
        (some (process_certification u none a1 t1))).certification
        = some (process_certification u none a1 t1) := by
  have hc : process_certification u none a1 t1
      = { user := u, is_certified := true, certification_date := some t1,
          passing_attempt := some a1 } := by
    simp [process_certification, UserCertification.createDefault,
      UserCertification.certify]
  refine ⟨?_, ?_, ?_, ?_, ?_⟩
  · rw [hc]; simp [process_certification]
  · rw [hc]
  · rw [hc]
  · rw [hc]
  · unfold take_assessment_post
    cases h : processResponses options answers responses with
    | error e => cases e with | mk done rest => simp
    | ok v =>
      cases v with
      | mk rs2 c =>
        simp only []
        split
        · rw [hc]; simp [process_certification]
        · rfl

/-!  ## Claim C3 -/

/-- Concrete world for C3: question 1 and question 2, where option 21 belongs
to question 2 and is correct. -/
def c3_options : List AssessmentOption :=
  [{ id := 11, question := 1, is_correct := true },
   { id := 21, question := 2, is_correct := true },
   { id := 22, question := 2, is_correct := false }]

/-- Fresh attempt for the C3/C4/C9 worlds. -/
def c3_attempt : AssessmentAttempt :=
  { id := 1, user := 1, assessment := 1, status := AttemptStatus.in_progress,
    total_questions := 2, correct_answers := 0, score_percentage := 0,
    passed := false, submitted_at := none }

/-- Fresh responses for the C3 world. -/
def c3_responses : List UserResponse :=
  [{ attempt := 1, question := 1, selected_option := none, is_correct := false },
   { attempt := 1, question := 2, selected_option := none, is_correct := false }]

/-- Claim C3 counterexample. Submitting question 1 with option 21 — an option
that belongs to question 2 — is not rejected: no error is raised (in
particular no `validation` error), and the response for question 1 is stored
with the foreign option and graded by that option's `is_correct = true`
flag. -/
theorem cross_question_option_not_rejected :
    (take_assessment_post 85 c3_options [(1, 21)] 5 c3_attempt c3_responses
        none).error = none
    ∧ (take_assessment_post 85 c3_options [(1, 21)] 5 c3_attempt c3_responses
        none).error ≠ some AppError.validation
    ∧ (take_assessment_post 85 c3_options [(1, 21)] 5 c3_attempt c3_responses
        none).responses
      = [{ attempt := 1, question := 1, selected_option := some 21,
            is_correct := true },
         { attempt := 1, question := 2, selected_option := none,
            is_correct := false }]
    ∧ (c3_options.find? (fun o => o.id == 21)).map (fun o => o.question)
        = some 2 := by
  refine ⟨?_, ?_, ?_, ?_⟩ <;> decide

/-- Claim C3 amended. The posted option id is only looked up for existence in the
global option table; an option that exists but belongs to a different question
than the one it answers is accepted, stored as the response's selection, and
the response is graded by that foreign option's `is_correct` flag — no
validation error occurs. -/
theorem foreign_option_accepted (options : List AssessmentOption)
    (answers : List (Nat × Nat)) (r : UserResponse) (o : AssessmentOption)
    (oid : Nat)
    (hans : answers.lookup r.question = some oid)
    (hopt : options.find? (fun x => x.id == oid) = some o)
    (_hforeign : o.question ≠ r.question) :
    processResponses options answers [r]
      = Except.ok
          ([{ r with selected_option := some o.id, is_correct := o.is_correct }],
            if o.is_correct then 1 else 0) := by
  simp [processResponses, hans, hopt]

/-- Witness for C3's amended theorem: option 21 of question 2 answers
question 1. -/
theorem foreign_option_accepted_witness :
    processResponses c3_options [(1, 21)]
        [{ attempt := 1, question := 1, selected_option := none,
            is_correct := false }]
      = Except.ok
          ([{ attempt := 1, question := 1, selected_option := some 21,
              is_correct := true }], 1) := by
  have h := foreign_option_accepted c3_options [(1, 21)]
    { attempt := 1, question := 1, selected_option := none, is_correct := false }
    { id := 21, question := 2, is_correct := true } 21
    (by decide) (by decide) (by decide)
  exact h

/-!  ## Claim C4 -/

/-- One-question world for C4: option 11 is the correct option of question 1. -/
def c4_options : List AssessmentOption :=
  [{ id := 11, question := 1, is_correct := true }]

/-- Fresh one-question attempt for C4. -/
def c4_attempt : AssessmentAttempt :=
  { id := 1, user := 1, assessment := 1, status := AttemptStatus.in_progress,
    total_questions := 1, correct_answers := 0, score_percentage := 0,
    passed := false, submitted_at := none }

/-- Fresh response rows for C4. -/
def c4_responses : List UserResponse :=
  [{ attempt := 1, question := 1, selected_option := none, is_correct := false }]

/-- Persisted state after the first submission of the C4 world. -/
def c4_first : SubmitState :=
  take_assessment_post 85 c4_options [(1, 11)] 5 c4_attempt c4_responses none

/-- Persisted state after submitting the same attempt a second time with the
same single correct answer. -/
def c4_second : SubmitState :=
  take_assessment_post 85 c4_options [(1, 11)] 6 c4_first.attempt
    c4_first.responses c4_first.certification

/-- Claim C4 counterexample. Submitting the one-question attempt twice with the
single correct answer each time: the second grading counts 1 correct answer
from the supplied map, yet the stored count becomes 2 and the score 200% —
not the 100% that grading based solely on the second submission's answers
would give.  The first submission's accumulated count carries over. -/
theorem resubmission_carries_over_counterexample :
    (processResponses c4_options [(1, 11)] c4_first.responses).toOption.map
        Prod.snd = some 1
    ∧ c4_second.attempt.correct_answers = 2
    ∧ c4_second.attempt.score_percentage = 200
    ∧ c4_second.attempt.score_percentage ≠ 100 := by
  have hscore : c4_second.attempt.score_percentage = 200 := by
    norm_num [c4_second, c4_first, take_assessment_post, processResponses,
      calculate_score, AssessmentAttempt.submit, process_certification,
      UserCertification.certify, UserCertification.createDefault,
      c4_options, c4_attempt, c4_responses]
  refine ⟨by decide, by decide, hscore, ?_⟩
  rw [hscore]
  norm_num

/-- Claim C4 amended. A second submission does recompute and overwrite
`score_percentage` and `passed`, but not from the second answer set alone:
the correct answers counted this time are added on top of the attempt's
stored `correct_answers` (`attempt.correct_answers += 1` starts from the
persisted value), so the new score is
`(old_count + newly_counted) / total * 100`, which can exceed 100%. -/
theorem resubmission_accumulates (ps now : Nat) (options : List AssessmentOption)
    (answers : List (Nat × Nat)) (attempt : AssessmentAttempt)
    (responses rs2 : List UserResponse) (cert : Option UserCertification)
    (c : Nat)
    (h : processResponses options answers responses = Except.ok (rs2, c)) :
    (take_assessment_post ps options answers now attempt responses
        cert).attempt.correct_answers = attempt.correct_answers + c
    ∧ (attempt.total_questions > 0 →
        (take_assessment_post ps options answers now attempt responses
            cert).attempt.score_percentage
          = (((attempt.correct_answers : Rat) + (c : Rat))
              / (attempt.total_questions : Rat)) * 100) := by
  unfold take_assessment_post
  rw [h]
  constructor
  · simp [AssessmentAttempt.submit, calculate_score]
    split <;> rfl
  · intro hpos
    simp [AssessmentAttempt.submit, calculate_score, hpos]

/-- Witness for C4's amended theorem on the concrete one-question world. -/
theorem resubmission_accumulates_witness :
    processResponses c4_options [(1, 11)] c4_first.responses
        = Except.ok ([{ attempt := 1, question := 1,
                        selected_option := some 11, is_correct := true }], 1)
    ∧ c4_second.attempt.correct_answers = c4_first.attempt.correct_answers + 1 := by
  refine ⟨by rfl, ?_⟩
  have h := resubmission_accumulates 85 6 c4_options [(1, 11)] c4_first.attempt
    c4_first.responses
    [{ attempt := 1, question := 1,
       selected_option := some 11, is_correct := true }]
    c4_first.certification 1 (by rfl)
  exact h.1

/-!  ## Claim C5 -/

/-- Claim C5. For an attempt created with `total_questions = 0` (frozen from the
assessment), submitting never divides by zero: `calculate_score` skips both
assignments, so the attempt keeps its creation defaults — score 0 and passed
false — whatever answers are posted. -/
theorem zero_total_questions_safe (u aid now : Nat) (assessment : Assessment)
    (qseq : List AssessmentQuestion) (options : List AssessmentOption)
    (answers : List (Nat × Nat)) (cert : Option UserCertification)
    (h : assessment.total_questions = 0) :
    (take_assessment_post assessment.passing_score options answers now
        (start_assessment u aid assessment qseq).1
        (start_assessment u aid assessment qseq).2 cert).attempt.score_percentage
      = 0
    ∧ (take_assessment_post assessment.passing_score options answers now
        (start_assessment u aid assessment qseq).1
        (start_assessment u aid assessment qseq).2 cert).attempt.passed
      = false := by
  unfold take_assessment_post
  cases hp : processResponses options answers
      (start_assessment u aid assessment qseq).2 with
  | error e =>
    cases e with
    | mk done rest => simp [start_assessment]
  | ok v =>
    cases v with
    | mk rs2 c =>
      simp [start_assessment, AssessmentAttempt.submit, calculate_score, h]

/-- Witness for C5: an assessment declaring zero questions, one posted
answer. -/
theorem zero_total_questions_safe_witness :
    ({ id := 1, passing_score := 85, total_questions := 0,
        randomize_questions := false, is_active := true } :
        Assessment).total_questions = 0
    ∧ (take_assessment_post 85 c4_options [(1, 11)] 5
        (start_assessment 1 1
          { id := 1, passing_score := 85, total_questions := 0,
            randomize_questions := false, is_active := true } []).1
        (start_assessment 1 1
          { id := 1, passing_score := 85, total_questions := 0,
            randomize_questions := false, is_active := true } []).2
        none).attempt.passed = false := by
  refine ⟨rfl, ?_⟩
  have h := zero_total_questions_safe 1 1 5
    { id := 1, passing_score := 85, total_questions := 0,
      randomize_questions := false, is_active := true }
    [] c4_options [(1, 11)] none rfl
  exact h.2

/-!  ## Claim C6 -/

/-- Claim C6. `start_assessment` creates exactly one response row per question
of the assessment, each with no selected option, `is_correct = false` and
linked to the new attempt; the questions covered by the created rows are a
permutation of the assessment's full question set both when
`randomize_questions` is true (any shuffle outcome, itself a permutation) and
when it is false (stable sort by the stored `order`).  The attempt freezes
`total_questions` from the assessment. -/
theorem start_assessment_responses_spec (u aid : Nat) (assessment : Assessment)
    (questions shuffled : List AssessmentQuestion)
    (hshuf : shuffled.Perm questions) :
    ((start_assessment u aid assessment
        (question_sequence assessment questions shuffled)).2).length
      = questions.length
    ∧ (∀ r ∈ (start_assessment u aid assessment
        (question_sequence assessment questions shuffled)).2,
        r.selected_option = none ∧ r.is_correct = false ∧ r.attempt = aid)
    ∧ ((start_assessment u aid assessment
        (question_sequence assessment questions shuffled)).2.map
          (fun r => r.question)).Perm (questions.map (fun q => q.id))
    ∧ (start_assessment u aid assessment
        (question_sequence assessment questions shuffled)).1.total_questions
      = assessment.total_questions := by
  have hq : (question_sequence assessment questions shuffled).Perm questions := by
    unfold question_sequence
    split
    · exact hshuf
    · exact List.mergeSort_perm questions _
  refine ⟨?_, ?_, ?_, rfl⟩
  · simp [start_assessment, hq.length_eq]
  · intro r hr
    simp only [start_assessment, List.mem_map] at hr
    obtain ⟨q, _, rfl⟩ := hr
    exact ⟨rfl, rfl, rfl⟩
  · have hmap : (start_assessment u aid assessment
        (question_sequence assessment questions shuffled)).2.map
          (fun r => r.question)
        = (question_sequence assessment questions shuffled).map
            (fun q => q.id) := by
      simp [start_assessment, List.map_map]
    rw [hmap]
    exact hq.map _

/-- Witness for C6: two questions, shuffled into reverse order. -/
theorem start_assessment_responses_spec_witness :
    ([({ id := 2, assessment := 1, order := 1 } : AssessmentQuestion),
      { id := 1, assessment := 1, order := 0 }].Perm
      [{ id := 1, assessment := 1, order := 0 },
       { id := 2, assessment := 1, order := 1 }])
    ∧ ((start_assessment 1 1
        { id := 1, passing_score := 85, total_questions := 2,
          randomize_questions := true, is_active := true }
        (question_sequence
          { id := 1, passing_score := 85, total_questions := 2,
            randomize_questions := true, is_active := true }
          [{ id := 1, assessment := 1, order := 0 },
           { id := 2, assessment := 1, order := 1 }]
          [{ id := 2, assessment := 1, order := 1 },
           { id := 1, assessment := 1, order := 0 }])).2.map
        (fun r => r.question)).Perm
      ([{ id := 1, assessment := 1, order := 0 },
        { id := 2, assessment := 1, order := 1 }].map
          (fun q : AssessmentQuestion => q.id)) := by
  refine ⟨by decide, ?_⟩
  have h := start_assessment_responses_spec 1 1
    { id := 1, passing_score := 85, total_questions := 2,
      randomize_questions := true, is_active := true }
    [{ id := 1, assessment := 1, order := 0 },
     { id := 2, assessment := 1, order := 1 }]
    [{ id := 2, assessment := 1, order := 1 },
     { id := 1, assessment := 1, order := 0 }]
    (by decide)
  exact h.2.2.1

/-!  ## Claim C7 -/

/-- If every response's question is absent from the posted answers, the loop
changes nothing and counts zero correct answers. -/
theorem processResponses_all_unanswered (options : List AssessmentOption)
    (answers : List (Nat × Nat)) :
    ∀ rsp : List UserResponse,
      (∀ r ∈ rsp, answers.lookup r.question = none) →
      processResponses options answers rsp = Except.ok (rsp, 0)
  | [], _ => rfl
  | r :: rs, h => by
    have hr : answers.lookup r.question = none := h r (List.mem_cons_self r rs)
    have ih := processResponses_all_unanswered options answers rs
      (fun x hx => h x (List.mem_cons_of_mem r hx))
    simp [processResponses, hr, ih]

/-- Assessment with `passing_score = 0` (the validators on the model field
allow 0): the C7 counterexample world. -/
def c7_assessment : Assessment :=
  { id := 1, passing_score := 0, total_questions := 1,
    randomize_questions := false, is_active := true }

/-- The single question of the C7 world. -/
def c7_questions : List AssessmentQuestion :=
  [{ id := 1, assessment := 1, order := 0 }]

/-- Claim C7 counterexample. An assessment whose `passing_score` is 0 (allowed
by the field's validators): submitting a fresh one-question attempt with no
answers at all yields `correct_answers = 0` and `score_percentage = 0`, yet
`passed = true`, because `0 >= 0` — the claim's unconditional
`passed = false` fails. -/
theorem empty_submission_zero_threshold_counterexample :
    (take_assessment_post c7_assessment.passing_score [] [] 5
        (start_assessment 1 1 c7_assessment c7_questions).1
        (start_assessment 1 1 c7_assessment c7_questions).2
        none).attempt.correct_answers = 0
    ∧ (take_assessment_post c7_assessment.passing_score [] [] 5
        (start_assessment 1 1 c7_assessment c7_questions).1
        (start_assessment 1 1 c7_assessment c7_questions).2
        none).attempt.score_percentage = 0
    ∧ (take_assessment_post c7_assessment.passing_score [] [] 5
        (start_assessment 1 1 c7_assessment c7_questions).1
        (start_assessment 1 1 c7_assessment c7_questions).2
        none).attempt.passed = true := by
  refine ⟨?_, ?_, ?_⟩ <;>
    norm_num [take_assessment_post, processResponses, start_assessment,
      c7_assessment, c7_questions, calculate_score, AssessmentAttempt.submit,
      process_certification, UserCertification.certify,
      UserCertification.createDefault]

/-- Claim C7 amended. For a fresh attempt created by `start_assessment` on an
assessment with `total_questions > 0` and a *positive* `passing_score`,
submitting with every question's answer omitted succeeds without error and
yields `correct_answers = 0`, `score_percentage = 0`, `passed = false`, with
all response rows left untouched (selected option still absent).  (When
`passing_score = 0` the code instead sets `passed = true`, since the
threshold comparison is inclusive.) -/
theorem empty_submission_amended (u aid now : Nat) (assessment : Assessment)
    (qseq : List AssessmentQuestion) (options : List AssessmentOption)
    (answers : List (Nat × Nat)) (cert : Option UserCertification)
    (htotal : 0 < assessment.total_questions)
    (hpass : 0 < assessment.passing_score)
    (hunans : ∀ r ∈ (start_assessment u aid assessment qseq).2,
        answers.lookup r.question = none) :
    (take_assessment_post assessment.passing_score options answers now
        (start_assessment u aid assessment qseq).1
        (start_assessment u aid assessment qseq).2 cert).error = none
    ∧ (take_assessment_post assessment.passing_score options answers now
        (start_assessment u aid assessment qseq).1
        (start_assessment u aid assessment qseq).2 cert).attempt.correct_answers
      = 0
    ∧ (take_assessment_post assessment.passing_score options answers now
        (start_assessment u aid assessment qseq).1
        (start_assessment u aid assessment qseq).2 cert).attempt.score_percentage
      = 0
    ∧ (take_assessment_post assessment.passing_score options answers now
        (start_assessment u aid assessment qseq).1
        (start_assessment u aid assessment qseq).2 cert).attempt.passed
      = false
    ∧ (take_assessment_post assessment.passing_score options answers now
        (start_assessment u aid assessment qseq).1
        (start_assessment u aid assessment qseq).2 cert).responses
      = (start_assessment u aid assessment qseq).2 := by
  have hloop := processResponses_all_unanswered options answers
    (start_assessment u aid assessment qseq).2 hunans
  have hnotle : ¬ ((assessment.passing_score : Rat) ≤ 0) := by
    rw [not_le]
    exact_mod_cast hpass
  unfold take_assessment_post
  rw [hloop]
  simp [start_assessment, calculate_score, AssessmentAttempt.submit, htotal,
    hnotle]

/-- Witness for C7's amended theorem: one question, threshold 85, empty
answer map. -/
theorem empty_submission_amended_witness :
    (0 < (1 : Nat)) ∧ (0 < (85 : Nat))
    ∧ (take_assessment_post
        ({ id := 1, passing_score := 85, total_questions := 1,
            randomize_questions := false, is_active := true } :
          Assessment).passing_score [] [] 5
        (start_assessment 1 1
          { id := 1, passing_score := 85, total_questions := 1,
            randomize_questions := false, is_active := true }
          c7_questions).1
        (start_assessment 1 1
          { id := 1, passing_score := 85, total_questions := 1,
            randomize_questions := false, is_active := true }
          c7_questions).2 none).attempt.passed = false := by
  refine ⟨by decide, by decide, ?_⟩
  have h := empty_submission_amended 1 1 5
    { id := 1, passing_score := 85, total_questions := 1,
      randomize_questions := false, is_active := true }
    c7_questions [] [] none (by decide) (by decide)
    (by intro r hr; rfl)
  exact h.2.2.2.1

/-!  ## Claim C8 -/

/-- Submitted attempt row owned by user 1, used for the C8 world. -/
def c8_attempt : AssessmentAttempt :=
  { id := 1, user := 1, assessment := 1, status := AttemptStatus.submitted,
    total_questions := 1, correct_answers := 1, score_percentage := 100,
    passed := true, submitted_at := some 5 }

/-- Claim C8 counterexample. User 2 accessing user 1's attempt: both the
submission fetch and the result view produce `notFound` — exactly the outcome
when no such attempt exists at all — and never the distinct `authorization`
error the claim requires. -/
theorem ownership_mismatch_counterexample :
    get_attempt_or_404 [c8_attempt] 1 2 = Except.error AppError.notFound
    ∧ assessment_result [c8_attempt] 1 2 = Except.error AppError.notFound
    ∧ get_attempt_or_404 [] 1 2 = Except.error AppError.notFound
    ∧ AppError.notFound ≠ AppError.authorization := by
  refine ⟨rfl, rfl, rfl, by decide⟩

/-- Claim C8 amended. The ownership condition is part of the database lookup
filter (`get_object_or_404(..., id=attempt_id, user=request.user)`), so an
attempt accessed by a non-owner is reported as `notFound` — indistinguishable
from the attempt being absent — for both the submission view and the result
view; no `authorization` error exists on this path. -/
theorem ownership_mismatch_is_notFound (attempts : List AssessmentAttempt)
    (aid u : Nat)
    (h : ∀ a ∈ attempts, a.id = aid → a.user ≠ u) :
    get_attempt_or_404 attempts aid u = Except.error AppError.notFound
    ∧ assessment_result attempts aid u = Except.error AppError.notFound := by
  have hfind : attempts.find? (fun a => a.id == aid && a.user == u) = none := by
    rw [List.find?_eq_none]
    intro a ha
    simp only [Bool.and_eq_true, beq_iff_eq, not_and]
    intro hid
    exact fun hu => h a ha hid hu
  constructor
  · unfold get_attempt_or_404
    rw [hfind]
  · unfold assessment_result get_attempt_or_404
    rw [hfind]

/-- Witness for C8's amended theorem: user 2 requesting user 1's attempt. -/
theorem ownership_mismatch_is_notFound_witness :
    (∀ a ∈ [c8_attempt], a.id = 1 → a.user ≠ 2)
    ∧ get_attempt_or_404 [c8_attempt] 1 2 = Except.error AppError.notFound := by
  have hmem : ∀ a ∈ [c8_attempt], a.id = 1 → a.user ≠ 2 := by
    intro a ha
    simp only [List.mem_singleton] at ha
    subst ha
    intro _
    decide
  exact ⟨hmem, (ownership_mismatch_is_notFound [c8_attempt] 1 2 hmem).1⟩

/-!  ## Claim C9 -/

/-- Claim C9 counterexample. Full flow on the one-question world: after the
POST submission the attempt's status is `submitted`, and the subsequent
result read returns the stored attempt unchanged — its status is still
`submitted`, not `graded`: no code path ever assigns the `graded` status. -/
theorem no_graded_transition_counterexample :
    c4_first.attempt.status = AttemptStatus.submitted
    ∧ c4_first.attempt.submitted_at = some 5
    ∧ assessment_result [c4_first.attempt] 1 1 = Except.ok c4_first.attempt
    ∧ c4_first.attempt.status ≠ AttemptStatus.graded := by
  refine ⟨by decide, by decide, by rfl, by decide⟩

/-- Claim C9 amended. A successful submission leaves the attempt with
`status = submitted` and `submitted_at` set to the submission instant; no
subsequent step changes the status to `graded`: the certification logic runs
inside the same POST before the attempt is stored, and the result view
returns a stored attempt as-is (its output row is an element of the attempt
table, with no write).  The `graded` status exists in the model's choices but
is never assigned. -/
theorem submit_sets_submitted_never_graded (ps now : Nat)
    (options : List AssessmentOption) (answers : List (Nat × Nat))
    (attempt : AssessmentAttempt) (responses : List UserResponse)
    (cert : Option UserCertification)
    (h : (take_assessment_post ps options answers now attempt responses
        cert).error = none) :
    (take_assessment_post ps options answers now attempt responses
        cert).attempt.status = AttemptStatus.submitted
    ∧ (take_assessment_post ps options answers now attempt responses
        cert).attempt.submitted_at = some now
    ∧ (∀ (atts : List AssessmentAttempt) (aid u : Nat) (a : AssessmentAttempt),
        assessment_result atts aid u = Except.ok a → a ∈ atts) := by
  refine ⟨?_, ?_, ?_⟩
  · unfold take_assessment_post at h ⊢
    cases hp : processResponses options answers responses with
    | error e =>
      cases e with
      | mk done rest => rw [hp] at h; simp at h
    | ok v =>
      cases v with
      | mk rs2 c => simp [hp, AssessmentAttempt.submit]
  · unfold take_assessment_post at h ⊢
    cases hp : processResponses options answers responses with
    | error e =>
      cases e with
      | mk done rest => rw [hp] at h; simp at h
    | ok v =>
      cases v with
      | mk rs2 c => simp [hp, AssessmentAttempt.submit]
  · intro atts aid u a ha
    unfold assessment_result get_attempt_or_404 at ha
    cases hf : atts.find? (fun x => x.id == aid && x.user == u) with
    | none => rw [hf] at ha; cases ha
    | some b =>
      rw [hf] at ha
      cases ha
      exact List.mem_of_find?_eq_some hf

/-- Witness for C9's amended theorem on the one-question world. -/
theorem submit_sets_submitted_never_graded_witness :
    (take_assessment_post 85 c4_options [(1, 11)] 5 c4_attempt c4_responses
        none).error = none
    ∧ (take_assessment_post 85 c4_options [(1, 11)] 5 c4_attempt c4_responses
        none).attempt.status = AttemptStatus.submitted := by
  refine ⟨by decide, ?_⟩
  have h := submit_sets_submitted_never_graded 85 5 c4_options [(1, 11)]
    c4_attempt c4_responses none (by decide)
  exact h.1

/-!  ## Claim C10 -/

/-- If some response's posted answer names an option id absent from the
option table, the loop fails, returning the rows already written (in their
new state) and the untouched rest. -/
theorem processResponses_error_of_dangling (options : List AssessmentOption)
    (answers : List (Nat × Nat)) :
    ∀ responses : List UserResponse,
      (∃ r ∈ responses, ∃ oid, answers.lookup r.question = some oid
          ∧ options.find? (fun o => o.id == oid) = none) →
      ∃ done rest,
        processResponses options answers responses = Except.error (done, rest)
  | [], h => absurd h (by simp)
  | r :: rs, h => by
    rcases h with ⟨w, hw, oid, hlook, hfind⟩
    rcases List.mem_cons.mp hw with hwr | hwrs
    · rw [hwr] at hlook
      refine ⟨[], r :: rs, ?_⟩
      simp [processResponses, hlook, hfind]
    · have hrs : ∃ w ∈ rs, ∃ oid, answers.lookup w.question = some oid
          ∧ options.find? (fun o => o.id == oid) = none :=
        ⟨w, hwrs, oid, hlook, hfind⟩
      obtain ⟨done, rest, hdr⟩ :=
        processResponses_error_of_dangling options answers rs hrs
      cases hl : answers.lookup r.question with
      | none =>
        refine ⟨r :: done, rest, ?_⟩
        simp [processResponses, hl, hdr]
      | some oid2 =>
        cases hf : options.find? (fun o => o.id == oid2) with
        | none =>
          refine ⟨[], r :: rs, ?_⟩
          simp [processResponses, hl, hf]
        | some o =>
          refine ⟨{ r with
                    selected_option := some o.id,
                    is_correct := o.is_correct } :: done, rest, ?_⟩
          simp [processResponses, hl, hf, hdr]

/-- Claim C10. Submission is not atomic on error: when a posted answer
references an option id that exists in no option row, the loop raises
`notFound` partway through; the responses processed before the failure keep
their newly persisted `selected_option` / `is_correct` values (the stored
table becomes the processed prefix followed by the untouched rest), while the
attempt row is completely unchanged — its status, `score_percentage` and
`passed` keep their pre-submission values — and the certification row is
untouched. -/
theorem failed_submission_partial_state (ps now : Nat)
    (options : List AssessmentOption) (answers : List (Nat × Nat))
    (attempt : AssessmentAttempt) (responses : List UserResponse)
    (cert : Option UserCertification)
    (hdangling : ∃ r ∈ responses, ∃ oid,
        answers.lookup r.question = some oid
        ∧ options.find? (fun o => o.id == oid) = none) :
    ∃ done rest,
      processResponses options answers responses = Except.error (done, rest)
      ∧ take_assessment_post ps options answers now attempt responses cert
          = { responses := done ++ rest, attempt := attempt,
              certification := cert, error := some AppError.notFound } := by
  obtain ⟨done, rest, hdr⟩ :=
    processResponses_error_of_dangling options answers responses hdangling
  refine ⟨done, rest, hdr, ?_⟩
  unfold take_assessment_post
  rw [hdr]

/-- Witness for C10: the first response is unanswered, the second names the
nonexistent option 99; the loop fails with the first row untouched and the
attempt row intact. -/
theorem failed_submission_partial_state_witness :
    (∃ r ∈ c3_responses, ∃ oid,
        ([(2, 99)] : List (Nat × Nat)).lookup r.question = some oid
        ∧ c3_options.find? (fun o => o.id == oid) = none)
    ∧ (∃ done rest,
        processResponses c3_options [(2, 99)] c3_responses
            = Except.error (done, rest)
        ∧ take_assessment_post 85 c3_options [(2, 99)] 5 c3_attempt
            c3_responses none
          = { responses := done ++ rest, attempt := c3_attempt,
              certification := none, error := some AppError.notFound }) := by
  have hd : ∃ r ∈ c3_responses, ∃ oid,
      ([(2, 99)] : List (Nat × Nat)).lookup r.question = some oid
      ∧ c3_options.find? (fun o => o.id == oid) = none := by
    refine ⟨{ attempt := 1, question := 2, selected_option := none,
              is_correct := false }, ?_, 99, rfl, rfl⟩
    simp [c3_responses]
  exact ⟨hd, failed_submission_partial_state 85 5 c3_options [(2, 99)]
    c3_attempt c3_responses none hd⟩
